/-
  Verification of the emergency-alert dispatch engine and account security
  state machine of the tourist-safety-system backend.

  Shallow embedding of:
  * the User model's lockout / OTP methods (src/models/RestrictedArea.js,
    User schema: `isLocked` virtual, `incLoginAttempts`, `resetLoginAttempts`,
    `generateOTP`, `verifyOTP`),
  * the login route (src/routes/auth.js, POST /login),
  * the OTP verification route (src/routes/auth.js, POST /verify-otp),
  * the SOS routes (src/unnamed/part_001: POST /trigger, `sendSOSAlerts`,
    `formatPhoneNumber`, `sendTripleSMS`).

  Time is modelled as milliseconds since epoch (`Nat`), matching `Date.now()`.
-/
import Mathlib

namespace TouristSafety

/-! ## Identity model

Fields of the User schema that the account-security core reads and writes.
`password` stands for the stored (hashed) secret; `bcrypt.compare` is modelled
as equality of the candidate secret with the stored one.  `lockUntil`,
`otpCode`, `otpExpiry` are optional schema fields (`undefined` = `none`);
`loginAttempts` defaults to 0. -/
structure Identity where
  password : String
  loginAttempts : Nat := 0
  lockUntil : Option Nat := none
  otpCode : Option String := none
  otpExpiry : Option Nat := none
  isPhoneVerified : Bool := false
  deriving Repr, DecidableEq

/-- `userSchema.virtual('isLocked')`:
`!!(this.lockUntil && this.lockUntil > Date.now())`.
A `Date` object is always truthy, so truthiness of `lockUntil` is presence. -/
def isLocked (s : Identity) (now : Nat) : Bool :=
  match s.lockUntil with
  | some t => now < t
  | none => false

/-- 2 hours in milliseconds, the lock window of `incLoginAttempts`. -/
def lockTime : Nat := 2 * 60 * 60 * 1000

/-- `userSchema.methods.incLoginAttempts`:
if a lock exists and has expired (`this.lockUntil < Date.now()`), unset the
lock and set `loginAttempts` to 1; otherwise increment `loginAttempts`, and
if the counter is about to reach 5 (`this.loginAttempts + 1 >= 5`) while not
currently locked, set `lockUntil = Date.now() + 2h`. -/
def incLoginAttempts (s : Identity) (now : Nat) : Identity :=
  match s.lockUntil with
  | some t =>
    if t < now then
      { s with lockUntil := none, loginAttempts := 1 }
    else
      let s' := { s with loginAttempts := s.loginAttempts + 1 }
      if s.loginAttempts + 1 ≥ 5 ∧ ¬ (isLocked s now) then
        { s' with lockUntil := some (now + lockTime) }
      else s'
  | none =>
    let s' := { s with loginAttempts := s.loginAttempts + 1 }
    if s.loginAttempts + 1 ≥ 5 ∧ ¬ (isLocked s now) then
      { s' with lockUntil := some (now + lockTime) }
    else s'

/-- `userSchema.methods.resetLoginAttempts`:
`$unset` of `loginAttempts` and `lockUntil`; an unset counter reads back as
the schema default 0, an unset `lockUntil` as absent. -/
def resetLoginAttempts (s : Identity) : Identity :=
  { s with loginAttempts := 0, lockUntil := none }

/-- Outcome of POST /login as seen by the caller. -/
inductive LoginResult where
  | locked
  | invalidCredentials
  | success
  deriving Repr, DecidableEq

/-- POST /login (src/routes/auth.js): after the user is found,
1. if `user.isLocked` → 423 (no state change at all);
2. otherwise compare the password; on mismatch `incLoginAttempts` then 401;
3. on match respond 200 and `resetLoginAttempts` (the asynchronous
   `setImmediate` update, reflected here as the post-request state). -/
def login (s : Identity) (pw : String) (now : Nat) : LoginResult × Identity :=
  if isLocked s now then (LoginResult.locked, s)
  else if pw ≠ s.password then (LoginResult.invalidCredentials, incLoginAttempts s now)
  else (LoginResult.success, resetLoginAttempts s)

/-- One failed authentication with a fixed wrong password, state view. -/
def failedLogin (s : Identity) (now : Nat) : Identity :=
  (login s (s.password ++ "x") now).2

/-! ## OTP (challenge) model -/

/-- 10 minutes in milliseconds, the OTP validity window. -/
def otpWindow : Nat := 10 * 60 * 1000

/-- The numeric value `Math.floor(100000 + Math.random() * 900000)` computed
by `generateOTP`, with `Math.random()`'s result `r ∈ [0,1)` made explicit. -/
def otpValue (r : ℚ) : Nat :=
  (Int.floor ((100000 : ℚ) + r * 900000)).toNat

/-- `userSchema.methods.generateOTP`: store the decimal string of `otpValue`
as `otpCode`, set `otpExpiry = Date.now() + 10min`, return the code. -/
def generateOTP (s : Identity) (r : ℚ) (now : Nat) : String × Identity :=
  let otp := toString (otpValue r)
  (otp, { s with otpCode := some otp, otpExpiry := some (now + otpWindow) })

/-- `userSchema.methods.verifyOTP`:
`this.otpCode === otp && this.otpExpiry > Date.now()`.
An absent `otpCode` is never strictly equal to a string, and an absent
`otpExpiry` compares false against a number. -/
def verifyOTP (s : Identity) (otp : String) (now : Nat) : Bool :=
  (match s.otpCode with
   | some c => c = otp
   | none => false)
  && (match s.otpExpiry with
      | some e => now < e
      | none => false)

/-- Outcome of POST /verify-otp as seen by the caller. -/
inductive VerifyOtpResult where
  | badRequest
  | ok
  deriving Repr, DecidableEq

/-- POST /verify-otp (src/routes/auth.js): with the user found and not yet
phone-verified, a failed `verifyOTP` responds 400 and performs no `save`
(state untouched); success flips `isPhoneVerified`, clears `otpCode` and
`otpExpiry`, and saves. -/
def verifyOtpRoute (s : Identity) (otp : String) (now : Nat) :
    VerifyOtpResult × Identity :=
  if verifyOTP s otp now then
    (VerifyOtpResult.ok,
      { s with isPhoneVerified := true, otpCode := none, otpExpiry := none })
  else (VerifyOtpResult.badRequest, s)

/-! ## SOS dispatch model (src/unnamed/part_001) -/

/-- The single denormalized emergency contact on the User document. -/
structure EmergencyContact where
  name : String
  phoneNumber : String
  deriving Repr, DecidableEq

/-- The User fields the SOS routes read. -/
structure SOSUser where
  fullName : String
  email : String
  phoneNumber : String
  touristType : String
  username : String
  emergencyContact : Option EmergencyContact
  deriving Repr, DecidableEq

/-- `formatPhoneNumber` in `sendSOSAlerts`, on the character sequence of the
string: `phone.replace(/\D/g, '')` is a filter keeping digits, `'91' + s` and
`'+' + s` prepend characters, and `s.startsWith('+')` for the one-character
prefix holds exactly when the first character is `'+'`.
`if (!phone) return null`: a string is falsy exactly when empty. -/
def formatPhoneNumber (phone : String) : Option String :=
  if phone = "" then none
  else
    let cleaned := phone.data.filter Char.isDigit
    let cleaned := if cleaned.length = 10 then '9' :: '1' :: cleaned else cleaned
    let cleaned := if cleaned.take 1 = ['+'] then cleaned else '+' :: cleaned
    some (String.mk cleaned)

/-- The hard-coded police destination in `sendSOSAlerts`. -/
def policeNumber : String := "+919876543210"

/-- Destination from the user's single emergency contact: a burst is pushed
when `user.emergencyContact && user.emergencyContact.phoneNumber` is truthy,
to the formatted number.  Under that truthiness guard `formatPhoneNumber`
always returns a value; `Option.toList` keeps exactly that value. -/
def ecDest (u : SOSUser) : List String :=
  match u.emergencyContact with
  | some ec =>
    if ec.phoneNumber ≠ "" then (formatPhoneNumber ec.phoneNumber).toList else []
  | none => []

/-- Destination from the user's own number: a confirmation burst is pushed
when `user.phoneNumber` is truthy, to the formatted number. -/
def ownDest (u : SOSUser) : List String :=
  if u.phoneNumber ≠ "" then (formatPhoneNumber u.phoneNumber).toList else []

/-- The destination addresses `sendSOSAlerts` starts a triple-SMS burst for,
in push order: the police number always, then the emergency contact's and
the user's own number when present. -/
def resolveDestinations (u : SOSUser) : List String :=
  policeNumber :: (ecDest u ++ ownDest u)

/-- Minimal JavaScript values as they occur in the trigger request body. -/
inductive JSValue where
  | undef
  | num (n : Int)
  | str (s : String)
  deriving Repr, DecidableEq

/-- JavaScript truthiness for the values above: `undefined` is falsy, a
number is falsy exactly when 0, a string exactly when empty. -/
def JSValue.truthy : JSValue → Bool
  | JSValue.undef => false
  | JSValue.num n => n ≠ 0
  | JSValue.str s => s ≠ ""

/-- `timestamp: timestamp || new Date()` in the SOSLog constructor call:
the request value when truthy, otherwise the server's current time. -/
def recordTimestamp (bodyTimestamp : JSValue) (nowMs : Nat) : JSValue :=
  if bodyTimestamp.truthy then bodyTimestamp else JSValue.num (Int.ofNat nowMs)

/-- Geolocation payload of the trigger body. -/
structure Location where
  latitude : ℚ
  longitude : ℚ
  deriving Repr, DecidableEq

/-- The persisted SOSLog document created by POST /trigger (fields the core
writes; `location: location || null`, `status: 'active'`,
`alertType: 'emergency'`, `emergencyContacts` from the user's single
emergency contact). -/
structure SOSRecord where
  userInfoFullName : String
  userInfoEmail : String
  userInfoPhoneNumber : String
  userInfoUsername : String
  location : Option Location
  timestamp : JSValue
  status : String
  alertType : String
  emergencyContacts : List EmergencyContact
  deriving Repr, DecidableEq

/-- The `new SOSLog({...})` constructed by POST /trigger. -/
def mkSOSRecord (u : SOSUser) (location : Option Location)
    (bodyTimestamp : JSValue) (nowMs : Nat) : SOSRecord :=
  { userInfoFullName := u.fullName
    userInfoEmail := u.email
    userInfoPhoneNumber := u.phoneNumber
    userInfoUsername := u.username
    location := location
    timestamp := recordTimestamp bodyTimestamp nowMs
    status := "active"
    alertType := "emergency"
    emergencyContacts := (u.emergencyContact.map fun ec => [ec]).getD [] }

/-- The fixed message body built once per trigger in `sendSOSAlerts`:
a Google-Maps link from the coordinates when a location was supplied,
otherwise the explicit `GPS unavailable` marker. -/
def baseMessage (location : Option Location) (timeString : String) : String :=
  match location with
  | some loc =>
    "🚨 EMERGENCY ALERT 🚨\nLocation: https://maps.google.com/maps?q=" ++
      toString loc.latitude ++ "," ++ toString loc.longitude ++
      "\nTime: " ++ timeString ++ "\nPlease call back immediately!"
  | none =>
    "🚨 EMERGENCY ALERT 🚨\nLocation: GPS unavailable\nTime: " ++
      timeString ++ "\nPlease call back immediately!"

/-! ### Burst timing (`sendTripleSMS`)

The loop body is `try { await create(...); if (i < 2) await sleep(2000) }
catch { log }`.  A throwing `create` jumps to `catch`, skipping the
2-second sleep, so the delay after attempt `i` happens only when the
attempt succeeded and it is not the last one.  Gateway latency is taken as
zero, so attempt start times are determined by the sleeps alone. -/

/-- Delay inserted after attempt `i` (0-based) with outcome `ok`. -/
def delayAfter (i : Nat) (ok : Bool) : Nat :=
  if ok ∧ i < 2 then 2000 else 0

/-- Start times of `fuel` consecutive attempts beginning with attempt
index `i` at time `t`, with per-attempt outcomes `ok`. -/
def burstStartsFrom : Nat → Nat → Nat → (Nat → Bool) → List Nat
  | 0, _, _, _ => []
  | fuel + 1, i, t, ok =>
    t :: burstStartsFrom fuel (i + 1) (t + delayAfter i (ok i)) ok

/-- Start times of the three attempts of one `sendTripleSMS` burst. -/
def burstStarts (ok : Nat → Bool) : List Nat :=
  burstStartsFrom 3 0 0 ok

/-- One gateway call attempt (`client.messages.create({body, from, to})`):
destination, sender (`process.env.TWILIO_PHONE_NUMBER`), message body,
attempt index within its burst (0, 1, 2), start time within the burst. -/
structure SendAttempt where
  dest : String
  sender : Option String
  body : String
  attempt : Nat
  start : Nat
  deriving Repr, DecidableEq

/-- Twilio configuration from the environment.  The SOS module builds its
client from `TWILIO_ACCOUNT_SID` / `TWILIO_AUTH_TOKEN` unconditionally and
never tests their presence. -/
structure TwilioConfig where
  accountSid : Option String
  authToken : Option String
  fromNumber : Option String
  deriving Repr, DecidableEq

/-- The three attempts of one `sendTripleSMS(dest)` burst: identical body,
issued unconditionally for `i = 0, 1, 2` (a caught failure never stops the
loop), timed by `burstStarts`. -/
def sendTripleSMS (sender : Option String) (msg dest : String)
    (ok : Nat → Bool) : List SendAttempt :=
  (List.range 3).map fun i =>
    { dest := dest, sender := sender, body := msg, attempt := i
      start := (burstStarts ok).getD i 0 }

/-- All gateway call attempts issued by `sendSOSAlerts`: one triple burst
per resolved destination.  `outcomes k i` is the success of attempt `i` of
destination `k`'s burst.  Only the sender number is read from the
configuration: the code has no credential-presence branch on the SOS path,
so the set of call attempts does not depend on whether credentials exist. -/
def dispatchAttempts (cfg : TwilioConfig) (u : SOSUser)
    (location : Option Location) (timeString : String)
    (outcomes : Nat → Nat → Bool) : List SendAttempt :=
  ((resolveDestinations u).enum.map fun p =>
    sendTripleSMS cfg.fromNumber (baseMessage location timeString) p.2
      (outcomes p.1)).flatten

/-- The JSON payload of the 200 response of POST /trigger. -/
structure TriggerResponse where
  success : Bool
  alertId : Nat
  timestamp : JSValue
  deriving Repr, DecidableEq

/-- Everything observable about one POST /trigger execution: the persisted
record, the gateway call attempts and the response.  The response is built
from `sosLog._id` (`alertId`) and `sosLog.timestamp`; gateway failures are
caught inside `sendTripleSMS` / `sendSOSAlerts` and never reach the route's
error path. -/
def trigger (cfg : TwilioConfig) (u : SOSUser) (location : Option Location)
    (bodyTimestamp : JSValue) (nowMs : Nat) (timeString : String)
    (alertId : Nat) (outcomes : Nat → Nat → Bool) :
    SOSRecord × List SendAttempt × TriggerResponse :=
  let record := mkSOSRecord u location bodyTimestamp nowMs
  (record,
   dispatchAttempts cfg u location timeString outcomes,
   { success := true, alertId := alertId, timestamp := record.timestamp })

/-! ### Happens-before order of one trigger execution

The handler awaits `sosLog.save()` before calling `sendSOSAlerts`, and
awaits `sendSOSAlerts` — which itself awaits `Promise.all` of all
per-destination bursts — before `res.json(...)`.  Within one burst the
`for` loop serializes the attempts; across destinations the bursts are
concurrent and unordered. -/

/-- A step of one trigger execution.  `send k i` is attempt `i` of the
burst to the `k`-th resolved destination. -/
inductive Step where
  | persist
  | send (destIdx attempt : Nat)
  | respond
  deriving Repr, DecidableEq

/-- Number of resolved destinations. -/
def numDests (u : SOSUser) : Nat :=
  (resolveDestinations u).length

/-- Happens-before between steps, read off the await structure:
`save` precedes everything, attempts of one burst are serialized, and every
attempt precedes the response because the handler awaits the whole fanout
before responding. -/
def stepHB (u : SOSUser) : Step → Step → Bool
  | Step.persist, Step.send k i => decide (k < numDests u ∧ i < 3)
  | Step.persist, Step.respond => true
  | Step.send k i, Step.send k' j =>
    decide (k = k' ∧ k < numDests u ∧ i < j ∧ j < 3)
  | Step.send k i, Step.respond => decide (k < numDests u ∧ i < 3)
  | _, _ => false

/-- All steps of one trigger execution, in one canonical order. -/
def allSteps (u : SOSUser) : List Step :=
  Step.persist ::
    (((List.range (numDests u)).flatMap fun k =>
      (List.range 3).map fun i => Step.send k i) ++ [Step.respond])

/-- A trace is admissible when it is a permutation of the execution's steps
and respects the happens-before order. -/
def Admissible (u : SOSUser) (tr : List Step) : Prop :=
  tr.Perm (allSteps u) ∧
    ∀ a ∈ tr, ∀ b ∈ tr, stepHB u a b = true → tr.indexOf a < tr.indexOf b

/-! ## Test fixtures -/

/-- A user with neither an emergency contact nor an own number: only the
police destination resolves. -/
def soloUser : SOSUser :=
  { fullName := "Test User", email := "test@example.com", phoneNumber := ""
    touristType := "indian", username := "testuser", emergencyContact := none }

/-- A fully populated user: all three destinations resolve. -/
def fullUser : SOSUser :=
  { fullName := "Asha Rao", email := "asha@example.com"
    phoneNumber := "+14155550100", touristType := "foreign"
    username := "asha", emergencyContact := some ⟨"Ravi", "98-7654 3211"⟩ }

/-- A user whose own number and emergency-contact number are both empty:
both fail normalization and are dropped. -/
def droppedUser : SOSUser :=
  { fullName := "D", email := "d@example.com", phoneNumber := ""
    touristType := "indian", username := "d"
    emergencyContact := some ⟨"EC", ""⟩ }

/-- An identity with a fresh security state. -/
def idLockTest : Identity := { password := "hunter2" }

/-- `idLockTest` after five failed authentications at times 1000..5000. -/
def idAfter5 : Identity :=
  failedLogin (failedLogin (failedLogin (failedLogin
    (failedLogin idLockTest 1000) 2000) 3000) 4000) 5000

/-- Environment with no Twilio credentials configured. -/
def noCreds : TwilioConfig := { accountSid := none, authToken := none, fromNumber := none }

/-! ## Helper lemmas -/

/-- A string extended by one character differs from itself. -/
theorem append_char_ne (s : String) : s ++ "x" ≠ s := by
  intro h
  have h' := congrArg String.length h
  rw [String.length_append] at h'
  have hx : "x".length = 1 := rfl
  rw [hx] at h'
  omega

/-- A failed authentication on an unlocked identity increments the counter
and sets the 2-hour lock exactly when the counter reaches 5. -/
theorem failedLogin_of_unlocked (s : Identity) (now : Nat)
    (h : s.lockUntil = none) :
    failedLogin s now =
      if s.loginAttempts + 1 ≥ 5 then
        { s with loginAttempts := s.loginAttempts + 1
                 lockUntil := some (now + lockTime) }
      else { s with loginAttempts := s.loginAttempts + 1 } := by
  unfold failedLogin login incLoginAttempts isLocked
  rw [h]
  simp [append_char_ne]

/-- **C2**: the lockout state machine.  After 5 consecutive failed
authentications the lock-expiry is `(time of 5th failure) + 2h` and the
counter reads 5; while `now < lockExpiry` the next attempt fails with the
locked result even with the correct secret and leaves the state untouched;
the lock is recomputed from lock-expiry versus the clock, so at
`now ≥ lockExpiry` the identity is no longer locked and the correct secret
authenticates, resetting counter and lock. -/
theorem c2_lockout_state_machine (s s5 : Identity)
    (t1 t2 t3 t4 t5 nowL nowU : Nat)
    (h0 : s.loginAttempts = 0) (hlk : s.lockUntil = none)
    (hs5 : s5 = failedLogin (failedLogin (failedLogin (failedLogin
      (failedLogin s t1) t2) t3) t4) t5)
    (hL : nowL < t5 + lockTime) (hU : t5 + lockTime ≤ nowU) :
    s5.lockUntil = some (t5 + lockTime) ∧
    s5.loginAttempts = 5 ∧
    login s5 s5.password nowL = (LoginResult.locked, s5) ∧
    isLocked s5 nowL = true ∧
    isLocked s5 nowU = false ∧
    login s5 s5.password nowU = (LoginResult.success, resetLoginAttempts s5) ∧
    (resetLoginAttempts s5).loginAttempts = 0 ∧
    (resetLoginAttempts s5).lockUntil = none := by
  have h1 : failedLogin s t1 = { s with loginAttempts := 1 } := by
    rw [failedLogin_of_unlocked s t1 hlk, h0]
    simp
  have h2 : failedLogin { s with loginAttempts := 1 } t2 =
      { s with loginAttempts := 2 } := by
    rw [failedLogin_of_unlocked { s with loginAttempts := 1 } t2 hlk]
    simp
  have h3 : failedLogin { s with loginAttempts := 2 } t3 =
      { s with loginAttempts := 3 } := by
    rw [failedLogin_of_unlocked { s with loginAttempts := 2 } t3 hlk]
    simp
  have h4 : failedLogin { s with loginAttempts := 3 } t4 =
      { s with loginAttempts := 4 } := by
    rw [failedLogin_of_unlocked { s with loginAttempts := 3 } t4 hlk]
    simp
  have h5 : failedLogin { s with loginAttempts := 4 } t5 =
      { s with loginAttempts := 5, lockUntil := some (t5 + lockTime) } := by
    rw [failedLogin_of_unlocked { s with loginAttempts := 4 } t5 hlk]
    simp
  have hval : s5 = { s with loginAttempts := 5, lockUntil := some (t5 + lockTime) } := by
    rw [hs5, h1, h2, h3, h4, h5]
  subst hval
  refine ⟨rfl, rfl, ?_, ?_, ?_, ?_, rfl, rfl⟩
  · simp [login, isLocked, hL]
  · simp [isLocked, hL]
  · simp [isLocked, Nat.not_lt.mpr hU]
  · simp [login, isLocked, Nat.not_lt.mpr hU]

/-- Witness for C2 at a concrete identity and concrete times. -/
theorem c2_lockout_state_machine_witness :
    idAfter5.lockUntil = some (5000 + lockTime) ∧
    idAfter5.loginAttempts = 5 ∧
    login idAfter5 idAfter5.password 5100 = (LoginResult.locked, idAfter5) ∧
    isLocked idAfter5 5100 = true ∧
    isLocked idAfter5 (5000 + lockTime) = false ∧
    login idAfter5 idAfter5.password (5000 + lockTime) =
      (LoginResult.success, resetLoginAttempts idAfter5) ∧
    (resetLoginAttempts idAfter5).loginAttempts = 0 ∧
    (resetLoginAttempts idAfter5).lockUntil = none :=
  c2_lockout_state_machine idLockTest idAfter5 1000 2000 3000 4000 5000 5100
    (5000 + lockTime) rfl rfl rfl (by decide) (by decide)

/-- Every admissible random draw yields a code value of at least 100000:
`floor` is monotone and the argument is at least 100000. -/
theorem otpValue_lower (r : ℚ) (h0 : 0 ≤ r) : 100000 ≤ otpValue r := by
  have hx : (100000 : ℚ) ≤ 100000 + r * 900000 := by nlinarith
  have hf : (100000 : ℤ) ≤ Int.floor ((100000 : ℚ) + r * 900000) :=
    Int.le_floor.mpr (by exact_mod_cast hx)
  unfold otpValue
  omega

/-- Every admissible random draw yields a code value of at most 999999. -/
theorem otpValue_upper (r : ℚ) (h1 : r < 1) : otpValue r ≤ 999999 := by
  have hx : (100000 : ℚ) + r * 900000 < 1000000 := by nlinarith
  have hf : Int.floor ((100000 : ℚ) + r * 900000) < 1000000 :=
    Int.floor_lt.mpr (by exact_mod_cast hx)
  unfold otpValue
  omega

/-- **C4 (amended)**: `generateOTP` draws a code value in 100000–999999
(never below 100000, so no left-zero-padding can occur), stores its decimal
string with expiry `now + 10min` — overwriting whatever challenge the
identity held — and returns that same code string. -/
theorem c4_generateOTP (s : Identity) (r : ℚ) (now : Nat)
    (h0 : 0 ≤ r) (h1 : r < 1) :
    100000 ≤ otpValue r ∧ otpValue r ≤ 999999 ∧
    (generateOTP s r now).1 = toString (otpValue r) ∧
    (generateOTP s r now).2.otpCode = some (toString (otpValue r)) ∧
    (generateOTP s r now).2.otpExpiry = some (now + otpWindow) :=
  ⟨otpValue_lower r h0, otpValue_upper r h1, rfl, rfl, rfl⟩

/-- Witness for C4 at a concrete draw. -/
theorem c4_generateOTP_witness :
    100000 ≤ otpValue (1/2) ∧ otpValue (1/2) ≤ 999999 ∧
    (generateOTP idLockTest (1/2) 0).1 = toString (otpValue (1/2)) ∧
    (generateOTP idLockTest (1/2) 0).2.otpCode = some (toString (otpValue (1/2))) ∧
    (generateOTP idLockTest (1/2) 0).2.otpExpiry = some (0 + otpWindow) :=
  c4_generateOTP idLockTest (1/2) 0 (by norm_num) (by norm_num)

/-- **C4 counterexample**: the claimed full range 000000–999999 is not
generated — no admissible draw produces the value 0, because every draw
produces at least 100000. -/
theorem c4_counterexample :
    ¬ ∀ n : Nat, n ≤ 999999 → ∃ r : ℚ, 0 ≤ r ∧ r < 1 ∧ otpValue r = n := by
  intro h
  obtain ⟨r, hr0, _, hv⟩ := h 0 (by norm_num)
  have := otpValue_lower r hr0
  omega

/-- **C7**: `verifyOTP` is true exactly when the stored code equals the
supplied one and the clock is before the stored expiry; a failed
verification leaves the identity untouched (the route saves nothing on the
400 path); a challenge just issued verifies immediately with the returned
code, and the same verification at or after the 10-minute expiry fails. -/
theorem c7_verifyChallenge (s : Identity) (otp : String) (now : Nat)
    (r : ℚ) (nowIssue nowLate : Nat)
    (hlate : nowIssue + otpWindow ≤ nowLate) :
    (verifyOTP s otp now = true ↔
      s.otpCode = some otp ∧ ∃ e, s.otpExpiry = some e ∧ now < e) ∧
    (verifyOTP s otp now = false →
      verifyOtpRoute s otp now = (VerifyOtpResult.badRequest, s)) ∧
    verifyOTP (generateOTP s r nowIssue).2 (generateOTP s r nowIssue).1
      nowIssue = true ∧
    verifyOTP (generateOTP s r nowIssue).2 (generateOTP s r nowIssue).1
      nowLate = false := by
  refine ⟨?_, ?_, ?_, ?_⟩
  · cases hc : s.otpCode with
    | none => simp [verifyOTP, hc]
    | some c =>
      cases he : s.otpExpiry with
      | none => simp [verifyOTP, hc, he]
      | some e =>
        simp only [verifyOTP, hc, he, Bool.and_eq_true, decide_eq_true_eq]
        constructor
        · rintro ⟨h1, h2⟩
          exact ⟨by rw [h1], e, rfl, h2⟩
        · rintro ⟨h1, e', he', hlt⟩
          obtain rfl : c = otp := Option.some.inj h1
          obtain rfl : e = e' := Option.some.inj he'
          exact ⟨rfl, hlt⟩
  · intro h
    simp [verifyOtpRoute, h]
  · have hc : (generateOTP s r nowIssue).2.otpCode =
        some ((generateOTP s r nowIssue).1) := rfl
    have he : (generateOTP s r nowIssue).2.otpExpiry =
        some (nowIssue + otpWindow) := rfl
    simp only [verifyOTP, hc, he]
    simp [otpWindow]
  · have hc : (generateOTP s r nowIssue).2.otpCode =
        some ((generateOTP s r nowIssue).1) := rfl
    have he : (generateOTP s r nowIssue).2.otpExpiry =
        some (nowIssue + otpWindow) := rfl
    simp only [verifyOTP, hc, he]
    simp only [Bool.and_eq_false_iff]
    right
    simp only [decide_eq_false_iff_not]
    omega

/-- Witness for C7: issue at time 0, verify at times 0 and `otpWindow`. -/
theorem c7_verifyChallenge_witness :
    verifyOTP (generateOTP idLockTest (1/2) 0).2
      (generateOTP idLockTest (1/2) 0).1 0 = true ∧
    verifyOTP (generateOTP idLockTest (1/2) 0).2
      (generateOTP idLockTest (1/2) 0).1 otpWindow = false := by
  have h := c7_verifyChallenge idLockTest "0" 0 (1/2) 0 otpWindow (by omega)
  exact ⟨h.2.2.1, h.2.2.2⟩

/-- Normalization fails exactly on the empty (falsy) address. -/
theorem formatPhoneNumber_eq_none (p : String) :
    formatPhoneNumber p = none ↔ p = "" := by
  unfold formatPhoneNumber
  split <;> simp_all

/-- **C8**: normalization strips all non-digit characters, prefixes the
default country code `91` exactly when 10 digits remain, and always ends up
with a leading `+`; in particular `"9876543210"` normalizes to
`"+919876543210"`. -/
theorem c8_formatPhoneNumber (phone : String) (h : phone ≠ "") :
    formatPhoneNumber phone =
      some (String.mk
        (if (phone.data.filter Char.isDigit).length = 10
         then '+' :: '9' :: '1' :: phone.data.filter Char.isDigit
         else '+' :: phone.data.filter Char.isDigit)) ∧
    formatPhoneNumber "9876543210" = some "+919876543210" := by
  constructor
  · unfold formatPhoneNumber
    rw [if_neg h]
    by_cases h10 : (phone.data.filter Char.isDigit).length = 10
    · simp [h10]
    · have hne : (phone.data.filter Char.isDigit).take 1 ≠ ['+'] := by
        cases hdd : phone.data.filter Char.isDigit with
        | nil => simp
        | cons c t =>
          have hdig : c.isDigit = true := by
            have hmem : c ∈ phone.data.filter Char.isDigit := by
              rw [hdd]
              exact List.mem_cons_self c t
            exact (List.mem_filter.mp hmem).2
          simp only [List.take_succ_cons, List.take_zero, ne_eq,
            List.cons.injEq, and_true]
          intro hc
          rw [hc] at hdig
          exact absurd hdig (by decide)
      simp [h10, hne]
  · rfl

/-- Witness for C8 at a messy concrete address. -/
theorem c8_formatPhoneNumber_witness :
    formatPhoneNumber "98-7654 3210" =
      some (String.mk
        (if (("98-7654 3210" : String).data.filter Char.isDigit).length = 10
         then '+' :: '9' :: '1' :: ("98-7654 3210" : String).data.filter Char.isDigit
         else '+' :: ("98-7654 3210" : String).data.filter Char.isDigit)) ∧
    formatPhoneNumber "9876543210" = some "+919876543210" :=
  c8_formatPhoneNumber "98-7654 3210" (by decide)

/-- The three attempts of one burst all target the burst's destination. -/
theorem sendTripleSMS_dests (sender : Option String) (msg d : String)
    (ok : Nat → Bool) :
    (sendTripleSMS sender msg d ok).map SendAttempt.dest =
      List.replicate 3 d := rfl

/-- Destinations of the full fanout, counted from position `k`: each
resolved destination receives exactly its three attempts. -/
theorem dispatch_dests_from (sender : Option String) (msg : String)
    (outcomes : Nat → Nat → Bool) (l : List String) (k : Nat) :
    (((List.enumFrom k l).map fun p =>
        sendTripleSMS sender msg p.2 (outcomes p.1)).flatten).map
        SendAttempt.dest
      = l.flatMap (List.replicate 3) := by
  induction l generalizing k with
  | nil => rfl
  | cons d t ih =>
    simp only [List.enumFrom, List.map_cons, List.flatten_cons, List.map_append,
      sendTripleSMS_dests, List.flatMap_cons]
    rw [ih (k + 1)]

/-- Destination multiset of the fanout: three attempts per resolved
destination, independent of the configuration and the gateway outcomes. -/
theorem dispatchAttempts_map_dest (cfg : TwilioConfig) (u : SOSUser)
    (loc : Option Location) (ts : String) (outcomes : Nat → Nat → Bool) :
    (dispatchAttempts cfg u loc ts outcomes).map SendAttempt.dest =
      (resolveDestinations u).flatMap (List.replicate 3) := by
  unfold dispatchAttempts
  rw [List.enum]
  exact dispatch_dests_from cfg.fromNumber (baseMessage loc ts) outcomes
    (resolveDestinations u) 0

/-- Three attempts per destination, counted. -/
theorem flatMap_replicate3_length (l : List String) :
    (l.flatMap (List.replicate 3)).length = 3 * l.length := by
  induction l with
  | nil => rfl
  | cons d t ih =>
    simp only [List.flatMap_cons, List.length_append, List.length_replicate,
      List.length_cons, ih]
    omega

/-- The fanout issues exactly `3 * numDests` gateway call attempts,
whatever the configuration and outcomes. -/
theorem dispatchAttempts_length (cfg : TwilioConfig) (u : SOSUser)
    (loc : Option Location) (ts : String) (outcomes : Nat → Nat → Bool) :
    (dispatchAttempts cfg u loc ts outcomes).length = 3 * numDests u := by
  have h1 : (dispatchAttempts cfg u loc ts outcomes).length =
      ((dispatchAttempts cfg u loc ts outcomes).map SendAttempt.dest).length :=
    (List.length_map _ _).symm
  rw [h1, dispatchAttempts_map_dest, flatMap_replicate3_length]
  rfl

/-- **C9**: an address that fails normalization (the empty/falsy one) is
dropped from the destination list — it contributes no destination while the
other destinations are untouched — and the fanout sends exactly three
attempts to each resolved destination, so nothing is ever sent to a dropped
address and dispatch to the rest proceeds. -/
theorem c9_malformed_dropped (u : SOSUser) (cfg : TwilioConfig)
    (loc : Option Location) (ts : String) (outcomes : Nat → Nat → Bool) :
    (formatPhoneNumber u.phoneNumber = none →
      ownDest u = [] ∧ resolveDestinations u = policeNumber :: ecDest u) ∧
    (∀ ec, u.emergencyContact = some ec →
      formatPhoneNumber ec.phoneNumber = none →
      ecDest u = [] ∧ resolveDestinations u = policeNumber :: ownDest u) ∧
    (dispatchAttempts cfg u loc ts outcomes).map SendAttempt.dest =
      (resolveDestinations u).flatMap (List.replicate 3) := by
  refine ⟨?_, ?_, ?_⟩
  · intro hfail
    have hempty : u.phoneNumber = "" := (formatPhoneNumber_eq_none _).mp hfail
    have hod : ownDest u = [] := by simp [ownDest, hempty]
    exact ⟨hod, by simp [resolveDestinations, hod]⟩
  · intro ec hec hfail
    have hempty : ec.phoneNumber = "" := (formatPhoneNumber_eq_none _).mp hfail
    have hed : ecDest u = [] := by simp [ecDest, hec, hempty]
    exact ⟨hed, by simp [resolveDestinations, hed]⟩
  · exact dispatchAttempts_map_dest cfg u loc ts outcomes

/-- Witness for C9: a user whose own and emergency-contact numbers are both
empty resolves to the police destination alone, which still gets its three
attempts. -/
theorem c9_malformed_dropped_witness :
    ownDest droppedUser = [] ∧ ecDest droppedUser = [] ∧
    resolveDestinations droppedUser = [policeNumber] ∧
    (dispatchAttempts noCreds droppedUser none "t"
        (fun _ _ => true)).map SendAttempt.dest =
      (resolveDestinations droppedUser).flatMap (List.replicate 3) := by
  have h := c9_malformed_dropped droppedUser noCreds none "t" (fun _ _ => true)
  have h1 := h.1 (by decide)
  have h2 := h.2.1 ⟨"EC", ""⟩ rfl (by decide)
  refine ⟨h1.1, h2.1, ?_, h.2.2⟩
  rw [h1.2, h2.1]

/-! ## Trace lemmas -/

/-- The persist step belongs to every trigger execution. -/
theorem persist_mem_allSteps (u : SOSUser) : Step.persist ∈ allSteps u :=
  List.mem_cons_self _ _

/-- The respond step belongs to every trigger execution. -/
theorem respond_mem_allSteps (u : SOSUser) : Step.respond ∈ allSteps u := by
  unfold allSteps
  exact List.mem_cons_of_mem _
    (List.mem_append_right _ (List.mem_singleton.mpr rfl))

/-- Every in-range send attempt belongs to the trigger execution. -/
theorem send_mem_allSteps (u : SOSUser) (k i : Nat)
    (hk : k < numDests u) (hi : i < 3) : Step.send k i ∈ allSteps u := by
  unfold allSteps
  refine List.mem_cons_of_mem _ (List.mem_append_left _ ?_)
  exact List.mem_flatMap.mpr ⟨k, List.mem_range.mpr hk,
    List.mem_map.mpr ⟨i, List.mem_range.mpr hi, rfl⟩⟩

/-- In every admissible trace the persist step precedes each send attempt:
`await sosLog.save()` completes before `sendSOSAlerts` starts. -/
theorem admissible_persist_lt_send (u : SOSUser) (tr : List Step)
    (h : Admissible u tr) (k i : Nat) (hk : k < numDests u) (hi : i < 3) :
    tr.indexOf Step.persist < tr.indexOf (Step.send k i) := by
  refine h.2 _ (h.1.mem_iff.mpr (persist_mem_allSteps u)) _
    (h.1.mem_iff.mpr (send_mem_allSteps u k i hk hi)) ?_
  simp [stepHB, hk, hi]

/-- In every admissible trace each send attempt precedes the response:
the handler awaits the whole fanout before `res.json`. -/
theorem admissible_send_lt_respond (u : SOSUser) (tr : List Step)
    (h : Admissible u tr) (k i : Nat) (hk : k < numDests u) (hi : i < 3) :
    tr.indexOf (Step.send k i) < tr.indexOf Step.respond := by
  refine h.2 _ (h.1.mem_iff.mpr (send_mem_allSteps u k i hk hi)) _
    (h.1.mem_iff.mpr (respond_mem_allSteps u)) ?_
  simp [stepHB, hk, hi]

/-- **C5**: in every admissible execution of the trigger handler, the
AlertRecord's persistence completes before any SMS send attempt to any
destination is issued. -/
theorem c5_persist_before_any_send (u : SOSUser) (tr : List Step)
    (h : Admissible u tr) (k i : Nat) (hk : k < numDests u) (hi : i < 3) :
    tr.indexOf Step.persist < tr.indexOf (Step.send k i) :=
  admissible_persist_lt_send u tr h k i hk hi

/-- Witness for C5 on the canonical trace of a one-destination user. -/
theorem c5_persist_before_any_send_witness :
    (allSteps soloUser).indexOf Step.persist <
      (allSteps soloUser).indexOf (Step.send 0 0) :=
  c5_persist_before_any_send soloUser (allSteps soloUser)
    ⟨List.Perm.refl _, by decide⟩ 0 0 (by decide) (by decide)

/-- **C1 (amended)**: the trigger handler awaits the whole SMS fanout, so
in every admissible execution the acknowledgment is issued only after all
send attempts (deliveries do not continue in the background relative to
the response); the record is still persisted before any send, and the
response still carries the record identifier and trigger timestamp with
success, independent of the per-attempt delivery outcomes. -/
theorem c1_ack_after_dispatch (u : SOSUser) (tr : List Step)
    (h : Admissible u tr) (k i : Nat) (hk : k < numDests u) (hi : i < 3)
    (cfg : TwilioConfig) (loc : Option Location) (bts : JSValue)
    (nowMs : Nat) (tstr : String) (aid : Nat)
    (outcomes : Nat → Nat → Bool) :
    tr.indexOf (Step.send k i) < tr.indexOf Step.respond ∧
    tr.indexOf Step.persist < tr.indexOf (Step.send k i) ∧
    (trigger cfg u loc bts nowMs tstr aid outcomes).2.2.alertId = aid ∧
    (trigger cfg u loc bts nowMs tstr aid outcomes).2.2.timestamp =
      (trigger cfg u loc bts nowMs tstr aid outcomes).1.timestamp ∧
    (trigger cfg u loc bts nowMs tstr aid outcomes).2.2.success = true :=
  ⟨admissible_send_lt_respond u tr h k i hk hi,
   admissible_persist_lt_send u tr h k i hk hi, rfl, rfl, rfl⟩

/-- Witness for the amended C1 on the canonical trace. -/
theorem c1_ack_after_dispatch_witness :
    (allSteps soloUser).indexOf (Step.send 0 0) <
      (allSteps soloUser).indexOf Step.respond ∧
    (allSteps soloUser).indexOf Step.persist <
      (allSteps soloUser).indexOf (Step.send 0 0) ∧
    (trigger noCreds soloUser none JSValue.undef 0 "t" 7
      (fun _ _ => false)).2.2.alertId = 7 ∧
    (trigger noCreds soloUser none JSValue.undef 0 "t" 7
      (fun _ _ => false)).2.2.timestamp =
      (trigger noCreds soloUser none JSValue.undef 0 "t" 7
        (fun _ _ => false)).1.timestamp ∧
    (trigger noCreds soloUser none JSValue.undef 0 "t" 7
      (fun _ _ => false)).2.2.success = true :=
  c1_ack_after_dispatch soloUser (allSteps soloUser)
    ⟨List.Perm.refl _, by decide⟩ 0 0 (by decide) (by decide)
    noCreds none JSValue.undef 0 "t" 7 (fun _ _ => false)

/-- **C1 counterexample**: the claim that the trigger returns before all
SMS send attempts complete is false — with at least one resolved
destination, no admissible execution places the response before any send
attempt. -/
theorem c1_counterexample :
    1 ≤ numDests soloUser ∧
    ¬ ∃ tr : List Step, Admissible soloUser tr ∧
        ∃ k i : Nat, k < numDests soloUser ∧ i < 3 ∧
          tr.indexOf Step.respond < tr.indexOf (Step.send k i) := by
  refine ⟨by decide, ?_⟩
  rintro ⟨tr, h, k, i, hk, hi, hlt⟩
  have := admissible_send_lt_respond soloUser tr h k i hk hi
  omega

/-- **C10 (amended)**: the persisted trigger timestamp equals the client's
value for every truthy supplied timestamp, and falls back to the server's
current time whenever the request supplies no timestamp or a falsy one
(such as numeric 0 or the empty string) — not only when none is supplied. -/
theorem c10_timestamp_caller_controlled (u : SOSUser) (loc : Option Location)
    (ts : JSValue) (nowMs : Nat) :
    (ts.truthy = true → (mkSOSRecord u loc ts nowMs).timestamp = ts) ∧
    (ts.truthy = false →
      (mkSOSRecord u loc ts nowMs).timestamp = JSValue.num (Int.ofNat nowMs)) := by
  constructor <;> intro h <;> simp [mkSOSRecord, recordTimestamp, h]

/-- Witness for the amended C10. -/
theorem c10_timestamp_caller_controlled_witness :
    (mkSOSRecord soloUser none (JSValue.num 42) 1000).timestamp =
      JSValue.num 42 ∧
    (mkSOSRecord soloUser none JSValue.undef 1000).timestamp =
      JSValue.num (Int.ofNat 1000) :=
  ⟨(c10_timestamp_caller_controlled soloUser none (JSValue.num 42) 1000).1
      (by decide),
   (c10_timestamp_caller_controlled soloUser none JSValue.undef 1000).2
      (by decide)⟩

/-- **C10 counterexample**: a request may supply a timestamp (epoch 0) and
still have the server's current time persisted, so "defaults to the
current time only when the request supplies no timestamp" fails. -/
theorem c10_counterexample :
    JSValue.num 0 ≠ JSValue.undef ∧
    (mkSOSRecord soloUser none (JSValue.num 0) 1000).timestamp =
      JSValue.num (Int.ofNat 1000) ∧
    (mkSOSRecord soloUser none (JSValue.num 0) 1000).timestamp ≠
      JSValue.num 0 := by
  refine ⟨by decide, by decide, by decide⟩

/-- **C3 (amended)**: the SOS dispatcher has no credential-presence check:
it issues the same gateway call attempts — three per resolved destination —
for every configuration, including one with no credentials at all (it calls
and catches per-attempt errors instead of skipping); the trigger still
persists the AlertRecord and responds with success. -/
theorem c3_no_credential_check (cfg : TwilioConfig) (u : SOSUser)
    (loc : Option Location) (tstr : String) (outcomes : Nat → Nat → Bool)
    (bts : JSValue) (nowMs aid : Nat) :
    (dispatchAttempts noCreds u loc tstr outcomes).length = 3 * numDests u ∧
    (dispatchAttempts noCreds u loc tstr outcomes).map SendAttempt.dest =
      (dispatchAttempts cfg u loc tstr outcomes).map SendAttempt.dest ∧
    (trigger noCreds u loc bts nowMs tstr aid outcomes).1 =
      mkSOSRecord u loc bts nowMs ∧
    (trigger noCreds u loc bts nowMs tstr aid outcomes).2.2.success = true := by
  refine ⟨dispatchAttempts_length noCreds u loc tstr outcomes, ?_, rfl, rfl⟩
  rw [dispatchAttempts_map_dest, dispatchAttempts_map_dest]

/-- Witness for the amended C3. -/
theorem c3_no_credential_check_witness :
    (dispatchAttempts noCreds soloUser none "t"
      (fun _ _ => false)).length = 3 * numDests soloUser ∧
    (dispatchAttempts noCreds soloUser none "t"
        (fun _ _ => false)).map SendAttempt.dest =
      (dispatchAttempts ⟨some "AC1", some "tok", some "+1000"⟩ soloUser none "t"
        (fun _ _ => false)).map SendAttempt.dest ∧
    (trigger noCreds soloUser none JSValue.undef 0 "t" 7
      (fun _ _ => false)).1 = mkSOSRecord soloUser none JSValue.undef 0 ∧
    (trigger noCreds soloUser none JSValue.undef 0 "t" 7
      (fun _ _ => false)).2.2.success = true :=
  c3_no_credential_check ⟨some "AC1", some "tok", some "+1000"⟩ soloUser none
    "t" (fun _ _ => false) JSValue.undef 0 7

/-- **C3 counterexample**: with no credentials configured the dispatcher
does not skip the gateway: for a user with a single resolved destination it
still issues three call attempts, refuting "skips all gateway calls
entirely". -/
theorem c3_counterexample :
    (dispatchAttempts noCreds soloUser none "t"
      (fun _ _ => false)).length = 3 ∧
    dispatchAttempts noCreds soloUser none "t" (fun _ _ => false) ≠ [] := by
  refine ⟨by decide, by decide⟩

/-- **C6 (amended)**: each destination's burst issues exactly 3 attempts of
the identical message body; the 2-second gap follows each successful
non-final attempt, while a failed attempt is followed immediately (the
sleep sits in the `try` block after the send); bursts always run to
completion whatever the per-attempt gateway outcomes — including a
destination whose attempts all fail — and the trigger still persists the
record and returns success. -/
theorem c6_burst_fixed_three (sender : Option String) (msg dest : String)
    (ok : Nat → Bool) (cfg : TwilioConfig) (u : SOSUser)
    (loc : Option Location) (tstr : String) (outcomes : Nat → Nat → Bool)
    (bts : JSValue) (nowMs aid : Nat) :
    (sendTripleSMS sender msg dest ok).length = 3 ∧
    (∀ a ∈ sendTripleSMS sender msg dest ok, a.body = msg ∧ a.dest = dest) ∧
    (∀ i : Nat, i < 2 → (burstStarts ok).getD (i + 1) 0 =
      (burstStarts ok).getD i 0 + (if ok i then 2000 else 0)) ∧
    (dispatchAttempts cfg u loc tstr outcomes).length = 3 * numDests u ∧
    (trigger cfg u loc bts nowMs tstr aid outcomes).2.2.success = true ∧
    (trigger cfg u loc bts nowMs tstr aid outcomes).1 =
      mkSOSRecord u loc bts nowMs := by
  refine ⟨rfl, ?_, ?_, dispatchAttempts_length cfg u loc tstr outcomes,
    rfl, rfl⟩
  · intro a ha
    simp only [sendTripleSMS, List.mem_map] at ha
    obtain ⟨i, _, rfl⟩ := ha
    exact ⟨rfl, rfl⟩
  · intro i hi
    interval_cases i <;>
      by_cases h0 : ok 0 <;> by_cases h1 : ok 1 <;>
        simp [burstStarts, burstStartsFrom, delayAfter, h0, h1]

/-- Witness for the amended C6, with every attempt failing. -/
theorem c6_burst_fixed_three_witness :
    (sendTripleSMS none "m" policeNumber (fun _ => false)).length = 3 ∧
    (burstStarts (fun _ => false)).getD 1 0 =
      (burstStarts (fun _ => false)).getD 0 0 +
        (if (fun _ => false) 0 then 2000 else 0) ∧
    (dispatchAttempts noCreds soloUser none "t"
      (fun _ _ => false)).length = 3 * numDests soloUser ∧
    (trigger noCreds soloUser none JSValue.undef 0 "t" 7
      (fun _ _ => false)).2.2.success = true := by
  have h := c6_burst_fixed_three none "m" policeNumber (fun _ => false)
    noCreds soloUser none "t" (fun _ _ => false) JSValue.undef 0 7
  exact ⟨h.1, h.2.2.1 0 (by decide), h.2.2.2.1, h.2.2.2.2.1⟩

/-- **C6 counterexample**: the fixed 2-second spacing claimed for all
consecutive attempts fails when an attempt throws — with every attempt
failing, the three attempts start back-to-back at time 0. -/
theorem c6_counterexample :
    burstStarts (fun _ => false) = [0, 0, 0] ∧
    ¬ ∀ ok : Nat → Bool, burstStarts ok = [0, 2000, 4000] := by
  refine ⟨rfl, ?_⟩
  intro h
  exact absurd (h (fun _ => false)) (by decide)

end TouristSafety
